import Mathlib

/-!
Verification development for the sngrep SIP storage and filter core.

The filter engine (src/filter.c) is embedded directly: the global filter
table becomes an explicit argument, a compiled GLib regex is modelled
extensionally as its match predicate on strings, and the mutation of the
field call.filtered performed by filter_check_call is made explicit by
returning the updated call. Parts of the repository that are only declared
in src/sip.h (their definitions live in sip.c, which is not part of this
corpus) are modelled from the specification and marked as such.
-/

/-- Filter selector types, the closed set used by the switch in
filter_check_call (src/filter.c lines 104 to 129), in the iteration order of
the loop (i from 0 to FILTER_COUNT - 1). -/
inductive filter_type where
  | FILTER_SIPFROM
  | FILTER_SIPTO
  | FILTER_SOURCE
  | FILTER_DESTINATION
  | FILTER_METHOD
  | FILTER_PAYLOAD
  | FILTER_CALL_LIST
  deriving DecidableEq, Repr, Fintype

/-- One entry of the filter table (struct filter_t): the expression string
when the filter is enabled, and the compiled regex, modelled extensionally as
its match predicate. A cleared filter holds neither. -/
structure filter_t where
  expr : Option String
  regex : Option (String → Bool)

/-- A SIP message as consulted by the filter engine: only its payload is read
(msg_get_payload). -/
structure sip_msg_t where
  payload : String
  deriving DecidableEq, Repr

/-- A SIP call as consulted by the filter engine: the message sequence, the
cached filter verdict (field filtered: -1 unknown, 0 pass, 1 reject) and the
attribute strings rendered by call_get_attribute and call_list_line_text
(whose rendering code lives outside this corpus, so the rendered strings are
stored in the record). -/
structure sip_call_t where
  msgs : List sip_msg_t
  filtered : Int
  attr_sipfrom : String
  attr_sipto : String
  attr_src : String
  attr_dst : String
  attr_method : String
  call_list_line : String
  deriving DecidableEq, Repr

/-- call_msg_count: number of messages of a call. -/
def call_msg_count (call : sip_call_t) : Nat :=
  call.msgs.length

/-- msg_get_payload: the payload of a message. -/
def msg_get_payload (msg : sip_msg_t) : String :=
  msg.payload

/-- filter_check_expr (src/filter.c lines 163 to 167): 0 when the compiled
regex matches the data, 1 otherwise. A filter without a compiled regex never
matches; filter_check_call only consults filters whose expression is set. -/
def filter_check_expr (filter : filter_t) (data : String) : Int :=
  match filter.regex with
  | some r => if r data then 0 else 1
  | none => 1

/-- filter_set (src/filter.c lines 41 to 66). When an expression is given it
is compiled first; on compilation failure the function returns 1 and the
filter table is left untouched. Otherwise the entry for the given type is
replaced (a cleared entry stores no expression and no regex) and 0 is
returned. The compiler g_regex_new is passed in as a function returning
none on failure. -/
def filter_set (filters : filter_type → filter_t) (type : filter_type)
    (expr : Option String) (g_regex_new : String → Option (String → Bool)) :
    Int × (filter_type → filter_t) :=
  match expr with
  | some e =>
    match g_regex_new e with
    | none => (1, filters)
    | some regex => (0, Function.update filters type ⟨some e, some regex⟩)
  | none => (0, Function.update filters type ⟨none, none⟩)

/-- filter_get (src/filter.c lines 68 to 72): the stored expression. -/
def filter_get (filters : filter_type → filter_t) (type : filter_type) :
    Option String :=
  (filters type).expr

/-- The attribute string fetched for each filter type by the switch in
filter_check_call (src/filter.c lines 104 to 129). FILTER_PAYLOAD fetches no
attribute there: the message payloads are scanned instead. -/
def filter_field_data (call : sip_call_t) : filter_type → String
  | .FILTER_SIPFROM => call.attr_sipfrom
  | .FILTER_SIPTO => call.attr_sipto
  | .FILTER_SOURCE => call.attr_src
  | .FILTER_DESTINATION => call.attr_dst
  | .FILTER_METHOD => call.attr_method
  | .FILTER_PAYLOAD => ""
  | .FILTER_CALL_LIST => call.call_list_line

/-- The loop iteration order of filter_check_call: every filter type once, in
enumeration order. -/
def filter_order : List filter_type :=
  [.FILTER_SIPFROM, .FILTER_SIPTO, .FILTER_SOURCE, .FILTER_DESTINATION,
   .FILTER_METHOD, .FILTER_PAYLOAD, .FILTER_CALL_LIST]

/-- The filter loop of filter_check_call (src/filter.c lines 95 to 157) as a
function from the remaining filter types to the final value stored in
call.filtered: disabled filters are skipped; for FILTER_PAYLOAD the message
payloads are scanned and the call is kept when some payload matches (the C
code sets filtered to 1, scans with break on the first match, and breaks out
of the outer loop when no payload matched); for every other type the fetched
attribute must match, and on failure the loop breaks with verdict 1. When the
loop runs to the end the verdict stays 0. -/
def check_filter_loop (filters : filter_type → filter_t) (call : sip_call_t) :
    List filter_type → Int
  | [] => 0
  | i :: rest =>
    match (filters i).expr with
    | none => check_filter_loop filters call rest
    | some _ =>
      match i with
      | .FILTER_PAYLOAD =>
        if call.msgs.any
            (fun msg => filter_check_expr (filters i) (msg_get_payload msg) == 0)
        then check_filter_loop filters call rest
        else 1
      | _ =>
        if filter_check_expr (filters i) (filter_field_data call i) == 0
        then check_filter_loop filters call rest
        else 1

/-- filter_check_call (src/filter.c lines 74 to 161). A call without messages
is never shown (and is left untouched); a settled cached verdict is returned
directly; otherwise the filters are evaluated, the resulting verdict is
stored in call.filtered and the call passes iff that verdict is 0. The C
function mutates call.filtered, so the updated call is returned alongside the
gboolean result. -/
def filter_check_call (filters : filter_type → filter_t) (call : sip_call_t) :
    Bool × sip_call_t :=
  if call_msg_count call = 0 then (false, call)
  else if call.filtered ≠ -1 then (call.filtered == 0, call)
  else
    let f := check_filter_loop filters call filter_order
    (f == 0, { call with filtered := f })

/-- filter_reset_calls (src/filter.c lines 169 to 179): set the cached
verdict of every stored call back to -1 so the next check re-evaluates. -/
def filter_reset_calls (calls : List sip_call_t) : List sip_call_t :=
  calls.map (fun call => { call with filtered := -1 })

/-- A filter is enabled when its expression is set. -/
def filter_enabled (filters : filter_type → filter_t) (i : filter_type) : Bool :=
  (filters i).expr.isSome

/-- The per-filter match relation of the specification, section 4.5: for
FILTER_PAYLOAD the call matches when at least one message payload matches the
pattern; for every other selector the fetched attribute string must match. -/
def call_matches_filter (filters : filter_type → filter_t) (call : sip_call_t) :
    filter_type → Bool
  | .FILTER_PAYLOAD =>
    call.msgs.any
      (fun msg => filter_check_expr (filters .FILTER_PAYLOAD) (msg_get_payload msg) == 0)
  | i => filter_check_expr (filters i) (filter_field_data call i) == 0

/-- The effect of filter_set on the whole storage state, filter table plus
stored calls: the code of filter_set (src/filter.c lines 41 to 66) reads and
writes only the filter table, so the stored calls are returned unchanged. -/
def filter_set_storage (filters : filter_type → filter_t)
    (calls : List sip_call_t) (type : filter_type) (expr : Option String)
    (g_regex_new : String → Option (String → Bool)) :
    Int × (filter_type → filter_t) × List sip_call_t :=
  let r := filter_set filters type expr g_regex_new
  (r.1, r.2, calls)

/-- A filter table with every filter disabled. -/
def all_disabled_filters : filter_type → filter_t :=
  fun _ => ⟨none, none⟩

/-- A filter table with only the METHOD filter enabled, matching the literal
INVITE. -/
def method_invite_filters : filter_type → filter_t := fun i =>
  match i with
  | .FILTER_METHOD => ⟨some "INVITE", some (fun s => s == "INVITE")⟩
  | _ => ⟨none, none⟩

/-- A filter table with only the PAYLOAD filter enabled, matching payloads
that start with BYE. -/
def payload_bye_filters : filter_type → filter_t := fun i =>
  match i with
  | .FILTER_PAYLOAD => ⟨some "BYE", some (fun s => s.toList.take 3 == "BYE".toList)⟩
  | _ => ⟨none, none⟩

/-- A concrete call with one INVITE message and an unknown verdict. -/
def invite_call : sip_call_t :=
  ⟨[⟨"INVITE sip:bob SIP/2.0"⟩], -1, "alice", "bob",
   "10.0.0.1", "10.0.0.2", "INVITE", "line"⟩

/-- A concrete call with messages INVITE, 200 OK and BYE and an unknown
verdict, as in scenario 6 of the specification. -/
def bye_call : sip_call_t :=
  ⟨[⟨"INVITE sip:bob SIP/2.0"⟩, ⟨"SIP/2.0 200 OK"⟩, ⟨"BYE sip:bob SIP/2.0"⟩],
   -1, "", "", "", "", "", ""⟩

/-- A concrete call without messages and an unknown verdict. -/
def empty_unknown_call : sip_call_t :=
  ⟨[], -1, "", "", "", "", "", ""⟩

/-- A concrete call without messages whose cached verdict is 0 (pass). -/
def empty_pass_call : sip_call_t :=
  ⟨[], 0, "", "", "", "", "", ""⟩

/-- A concrete call with one message whose cached verdict is 1 (reject). -/
def reject_cached_call : sip_call_t :=
  ⟨[⟨"INVITE sip:bob SIP/2.0"⟩], 1, "", "", "", "", "", ""⟩

/-- A concrete call with one message whose cached verdict is 0 (pass). -/
def verdict_pass_call : sip_call_t :=
  ⟨[⟨"INVITE sip:alice SIP/2.0"⟩], 0, "alice", "", "", "", "INVITE", ""⟩

/-- The SIP method enumeration of src/sip.h lines 55 to 70 together with the
method strings listed in section 4.2 of the specification: REGISTER is 1 and
the rest follow in order up to UPDATE, 14. -/
def sip_methods : List (Int × String) :=
  [(1, "REGISTER"), (2, "INVITE"), (3, "SUBSCRIBE"), (4, "NOTIFY"),
   (5, "OPTIONS"), (6, "PUBLISH"), (7, "MESSAGE"), (8, "CANCEL"),
   (9, "BYE"), (10, "ACK"), (11, "PRACK"), (12, "INFO"),
   (13, "REFER"), (14, "UPDATE")]

/-- Reads a decimal number from a character list: none when the list is empty
or holds a non-digit. -/
def parse_nat (cs : List Char) : Option Nat :=
  if cs = [] then none
  else if cs.all (fun c => c.isDigit) then
    some (cs.foldl (fun n c => 10 * n + (c.toNat - 48)) 0)
  else none

/-- Modelled from the spec: sip_method_str (defined in sip.c, which is absent
from this corpus) returns the string of an enumerated method, none for any
other value. -/
def sip_method_str (method : Int) : Option String :=
  (sip_methods.find? (fun p => p.1 == method)).map (fun p => p.2)

/-- Modelled from the spec: sip_method_from_str (sip.c, absent from this
corpus) returns the enumeration value for a method string and the numeric
value for a response code string. -/
def sip_method_from_str (method : String) : Int :=
  match sip_methods.find? (fun p => p.2 == method) with
  | some p => p.1
  | none => Int.ofNat ((parse_nat method.toList).getD 0)

/-- Splits a line into space-separated words, accumulating the current word
in reverse. -/
def line_words_aux : List Char → List Char → List String
  | [], acc => if acc = [] then [] else [String.mk acc.reverse]
  | c :: cs, acc =>
    if c = ' ' then
      if acc = [] then line_words_aux cs []
      else String.mk acc.reverse :: line_words_aux cs []
    else line_words_aux cs (c :: acc)

/-- The space-separated words of a line. -/
def line_words (line : String) : List String :=
  line_words_aux line.toList []

/-- Modelled from the spec: a SIP request start line is a known method token,
a request URI and the literal SIP/2.0 (section 4.1 of the specification; the
compiled pattern lives in sip.c, absent from this corpus). -/
def is_request_line (line : String) : Bool :=
  match line_words line with
  | [method, _uri, version] =>
    version == "SIP/2.0" && sip_methods.any (fun p => p.2 == method)
  | _ => false

/-- Modelled from the spec: a SIP response start line is the literal SIP/2.0,
a three-digit status code and a reason phrase. -/
def is_response_line (line : String) : Bool :=
  match line_words line with
  | version :: code :: _ :: _ =>
    version == "SIP/2.0" && code.length == 3 && code.toList.all (fun c => c.isDigit)
  | _ => false

/-- Modelled from the spec: the first line of a payload matches a SIP message
when it is a request or a response start line. -/
def sip_start_line_ok (line : String) : Bool :=
  is_request_line line || is_response_line line

/-- Case-insensitive comparison of a header name against Content-Length. -/
def header_name_is_cl (name : String) : Bool :=
  name.toList.map Char.toLower == "content-length".toList

/-- Modelled from the spec: the Content-Length header lookup of
sip_validate_packet, first occurrence, case-insensitive, value read as a
decimal number (header values are stored already trimmed in this model). -/
def find_content_length : List (String × String) → Option Nat
  | [] => none
  | (name, value) :: rest =>
    if header_name_is_cl name then parse_nat value.toList
    else find_content_length rest

/-- A stream-transport payload as consulted by sip_validate_packet: the first
line, the header fields, and the bytes following the header terminator. -/
structure tcp_payload where
  first_line : String
  headers : List (String × String)
  body : List Char
  deriving DecidableEq

/-- Modelled from the spec: sip_validate_packet (sip.c, absent from this
corpus) for a stream transport, with the result values of enum
validate_result (src/sip.h lines 73 to 78): -1 NOT_SIP when the first line
matches no SIP start line, 0 PARTIAL without a Content-Length header or
while fewer than the declared number of body bytes are present, 1 COMPLETE
at exactly the declared number, 2 MULTIPLE when bytes remain after the
declared body. -/
def sip_validate_packet (p : tcp_payload) : Int :=
  if sip_start_line_ok p.first_line = false then -1
  else
    match find_content_length p.headers with
    | none => 0
    | some n =>
      if p.body.length < n then 0
      else if p.body.length = n then 1
      else 2

/-- A complete INVITE payload with a three-byte body. -/
def complete_invite_payload : tcp_payload :=
  ⟨"INVITE sip:bob@example.com SIP/2.0", [("Content-Length", "3")], ['a', 'b', 'c']⟩

/-- The storage state consulted by sip_calls_has_changed: the changed flag of
struct sip_call_list (src/sip.h line 161). -/
structure storage_change_state where
  changed : Bool
  deriving DecidableEq

/-- Modelled from the spec: sip_calls_has_changed (sip.c, absent from this
corpus) returns whether the call list changed since the previous invocation
and clears the flag in the same step. -/
def sip_calls_has_changed (s : storage_change_state) :
    Bool × storage_change_state :=
  (s.changed, { s with changed := false })

/-- The structural mutations of the call set that raise the changed flag:
call creation, call removal, message append. -/
inductive storage_mutation where
  | create_call
  | remove_call
  | append_msg
  deriving DecidableEq

/-- Modelled from the spec: every structural mutation sets the changed flag
of the storage. -/
def apply_mutation (s : storage_change_state) (_m : storage_mutation) :
    storage_change_state :=
  { s with changed := true }

/-- Applies a sequence of structural mutations in order. -/
def apply_mutations (s : storage_change_state) (ms : List storage_mutation) :
    storage_change_state :=
  ms.foldl apply_mutation s

/-- A stored call as consulted by the capacity policy: the locked flag
exempts a call from rotation. -/
structure stored_call where
  locked : Bool
  deriving DecidableEq

/-- The storage state consulted by the capacity policy: the call list in
creation order together with the limit and rotate fields of struct
_SStorageCaptureOpts (src/sip.h lines 102 to 111). -/
structure storage_capacity_state where
  all : List stored_call
  limit : Nat
  rotate : Bool
  deriving DecidableEq

/-- Removes the oldest call that is not locked; a list of locked calls is
returned unchanged. -/
def remove_first_unlocked : List stored_call → List stored_call
  | [] => []
  | c :: rest => if c.locked then c :: remove_first_unlocked rest else rest

/-- Modelled from the spec: sip_calls_rotate (sip.c, absent from this corpus)
evicts the oldest non-locked call from the list. -/
def sip_calls_rotate (s : storage_capacity_state) : storage_capacity_state :=
  { s with all := remove_first_unlocked s.all }

/-- Modelled from the spec: the call list produced by the capacity step of
sip_check_packet (specification section 4.4, step 4) when a new call is
admitted: below the limit the call is appended; at the limit, with rotation
the oldest non-locked call is evicted and the new call appended (nothing is
admitted when every stored call is locked), and without rotation the new
call is dropped. -/
def capacity_step_all (s : storage_capacity_state) (newc : stored_call) :
    List stored_call :=
  if s.all.length = s.limit then
    if s.rotate then
      if s.all.any (fun c => !c.locked) then remove_first_unlocked s.all ++ [newc]
      else s.all
    else s.all
  else s.all ++ [newc]

/-- Modelled from the spec: the capacity step of sip_check_packet on the
storage state; only the call list changes. -/
def sip_check_packet_capacity (s : storage_capacity_state)
    (newc : stored_call) : storage_capacity_state :=
  { s with all := capacity_step_all s newc }

/-- A storage state at its limit of one call, rotation on, the stored call
not locked. -/
def capacity_witness_state : storage_capacity_state :=
  ⟨[⟨false⟩], 1, true⟩

theorem mem_filter_order (i : filter_type) : i ∈ filter_order := by
  cases i <;> simp [filter_order]

theorem check_filter_loop_zero_or_one (filters : filter_type → filter_t)
    (call : sip_call_t) :
    ∀ l : List filter_type,
      check_filter_loop filters call l = 0 ∨ check_filter_loop filters call l = 1
  | [] => Or.inl rfl
  | i :: rest => by
    have ih := check_filter_loop_zero_or_one filters call rest
    cases hexpr : (filters i).expr with
    | none => simpa [check_filter_loop, hexpr] using ih
    | some e =>
      cases i <;> simp only [check_filter_loop, hexpr] <;> split <;>
        first
          | exact ih
          | exact Or.inr rfl

theorem check_filter_loop_eq_zero_iff (filters : filter_type → filter_t)
    (call : sip_call_t) :
    ∀ l : List filter_type,
      (check_filter_loop filters call l = 0 ↔
        ∀ i ∈ l, filter_enabled filters i = true →
          call_matches_filter filters call i = true)
  | [] => by simp [check_filter_loop]
  | i :: rest => by
    have ih := check_filter_loop_eq_zero_iff filters call rest
    cases hexpr : (filters i).expr with
    | none =>
      simp only [check_filter_loop, hexpr, List.mem_cons]
      constructor
      · intro h j hj hen
        rcases hj with hj | hj
        · subst hj
          simp [filter_enabled, hexpr] at hen
        · exact (ih.mp h) j hj hen
      · intro h
        exact ih.mpr (fun j hj hen => h j (Or.inr hj) hen)
    | some e =>
      have hen : filter_enabled filters i = true := by
        simp [filter_enabled, hexpr]
      cases i
      all_goals
        simp only [check_filter_loop, hexpr, List.mem_cons]
        split
        next hmatch =>
          rw [ih]
          constructor
          · intro h j hj hje
            rcases hj with hj | hj
            · subst hj
              simpa [call_matches_filter] using hmatch
            · exact h j hj hje
          · intro h j hj hje
            exact h j (Or.inr hj) hje
        next hmatch =>
          constructor
          · intro h
            exact absurd h (by decide)
          · intro h
            have hc := h _ (Or.inl rfl) hen
            simp only [call_matches_filter] at hc
            exact absurd hc (by simpa using hmatch)

theorem filter_check_call_no_msgs (filters : filter_type → filter_t)
    (call : sip_call_t) (h : call.msgs = []) :
    filter_check_call filters call = (false, call) := by
  have hlen : call_msg_count call = 0 := by
    simp [call_msg_count, h]
  unfold filter_check_call
  rw [if_pos hlen]

theorem filter_check_call_cached (filters : filter_type → filter_t)
    (call : sip_call_t) (h1 : call.msgs ≠ []) (h2 : call.filtered ≠ -1) :
    filter_check_call filters call = ((call.filtered == 0 : Bool), call) := by
  have hlen : ¬ call_msg_count call = 0 := by
    simpa [call_msg_count, List.length_eq_zero] using h1
  unfold filter_check_call
  rw [if_neg hlen, if_pos h2]

theorem filter_check_call_unknown (filters : filter_type → filter_t)
    (call : sip_call_t) (h1 : call.msgs ≠ []) (h2 : call.filtered = -1) :
    filter_check_call filters call =
      ((check_filter_loop filters call filter_order == 0 : Bool),
        { call with filtered := check_filter_loop filters call filter_order }) := by
  have hlen : ¬ call_msg_count call = 0 := by
    simpa [call_msg_count, List.length_eq_zero] using h1
  unfold filter_check_call
  rw [if_neg hlen, if_neg (by simp [h2])]

theorem filter_check_call_true_iff (filters : filter_type → filter_t)
    (call : sip_call_t) (h1 : call.msgs ≠ []) (h2 : call.filtered = -1) :
    ((filter_check_call filters call).1 = true ↔
      ∀ i, filter_enabled filters i = true →
        call_matches_filter filters call i = true) := by
  rw [filter_check_call_unknown filters call h1 h2]
  simp only [beq_iff_eq]
  rw [check_filter_loop_eq_zero_iff]
  constructor
  · intro h i hen
    exact h i (mem_filter_order i) hen
  · intro h i _ hen
    exact h i hen

theorem filter_check_call_reject_of_failed (filters : filter_type → filter_t)
    (call : sip_call_t) (h1 : call.msgs ≠ []) (h2 : call.filtered = -1)
    (i : filter_type) (hen : filter_enabled filters i = true)
    (hm : call_matches_filter filters call i = false) :
    (filter_check_call filters call).1 = false ∧
      (filter_check_call filters call).2.filtered = 1 := by
  have hne : check_filter_loop filters call filter_order ≠ 0 := by
    intro h0
    rw [check_filter_loop_eq_zero_iff] at h0
    have hmt := h0 i (mem_filter_order i) hen
    rw [hmt] at hm
    exact absurd hm (by decide)
  have hone : check_filter_loop filters call filter_order = 1 := by
    rcases check_filter_loop_zero_or_one filters call filter_order with h0 | hone
    · exact absurd h0 hne
    · exact hone
  rw [filter_check_call_unknown filters call h1 h2]
  simp [hone]

/-- Claim C1: for every call with at least one message and an unknown cached
verdict, filter_check_call returns true iff the call matches every enabled
filter (every filter whose expression is set); and whenever some enabled
filter fails to match, the verdict stored in the call becomes 1 (reject) and
the function returns false. -/
theorem filter_check_call_and_semantics (filters : filter_type → filter_t)
    (call : sip_call_t) (h1 : call.msgs ≠ []) (h2 : call.filtered = -1) :
    ((filter_check_call filters call).1 = true ↔
      ∀ i, filter_enabled filters i = true →
        call_matches_filter filters call i = true)
    ∧ ∀ i, filter_enabled filters i = true →
        call_matches_filter filters call i = false →
          (filter_check_call filters call).1 = false ∧
            (filter_check_call filters call).2.filtered = 1 :=
  ⟨filter_check_call_true_iff filters call h1 h2,
    fun i hen hm => filter_check_call_reject_of_failed filters call h1 h2 i hen hm⟩

/-- Witness for the C1 theorem: a concrete call with one INVITE message and a
filter table whose only enabled filter (METHOD, matching INVITE) matches, so
the call passes. -/
theorem filter_check_call_and_semantics_witness :
    invite_call.msgs ≠ [] ∧ invite_call.filtered = -1 ∧
      (filter_check_call method_invite_filters invite_call).1 = true :=
  ⟨by decide, rfl,
    (filter_check_call_and_semantics method_invite_filters invite_call
        (by decide) rfl).1.mpr (by decide)⟩

/-- Claim C2: when the expression fails to compile, filter_set returns 1 and
the filter table, in particular the entry for the given type, is unchanged. -/
theorem filter_set_invalid_pattern_rejected (filters : filter_type → filter_t)
    (type : filter_type) (e : String)
    (g_regex_new : String → Option (String → Bool))
    (h : g_regex_new e = none) :
    filter_set filters type (some e) g_regex_new = (1, filters)
    ∧ (filter_set filters type (some e) g_regex_new).2 type = filters type := by
  have heq : filter_set filters type (some e) g_regex_new = (1, filters) := by
    simp [filter_set, h]
  exact ⟨heq, by rw [heq]⟩

/-- Witness for the C2 theorem: a compiler that fails on every expression
leaves a concrete filter table untouched and reports 1. -/
theorem filter_set_invalid_pattern_rejected_witness :
    ((fun _ : String => (none : Option (String → Bool))) "(") = none ∧
      filter_set all_disabled_filters .FILTER_SIPFROM (some "(")
        (fun _ => none) = (1, all_disabled_filters) :=
  ⟨rfl,
    (filter_set_invalid_pattern_rejected all_disabled_filters .FILTER_SIPFROM
        "(" (fun _ => none) rfl).1⟩

/-- Claim C10: a call without messages is rejected by filter_check_call
without evaluating any filter and without modifying the call, whatever the
filter table. -/
theorem filter_check_call_empty_call (filters : filter_type → filter_t)
    (call : sip_call_t) (h : call.msgs = []) :
    filter_check_call filters call = (false, call) :=
  filter_check_call_no_msgs filters call h

/-- Witness for the C10 theorem: a concrete empty call under a table with an
enabled filter. -/
theorem filter_check_call_empty_call_witness :
    empty_unknown_call.msgs = [] ∧
      filter_check_call method_invite_filters empty_unknown_call =
        (false, empty_unknown_call) :=
  ⟨rfl, filter_check_call_empty_call method_invite_filters empty_unknown_call rfl⟩

/-- Counterexample to claim C5 as stated: a call without messages whose
cached verdict is 0 (pass) is not returned as its cached verdict;
filter_check_call returns false for it. -/
theorem cached_verdict_empty_call_counterexample :
    empty_pass_call.filtered ≠ -1 ∧ empty_pass_call.filtered = 0 ∧
      (filter_check_call all_disabled_filters empty_pass_call).1 = false :=
  ⟨by decide, rfl, rfl⟩

/-- Claim C5 (amended): for every call with at least one message, a settled
cached verdict is returned as is (true iff the verdict is 0) with the call
unchanged, so no filter is re-evaluated; and only an unknown verdict (-1)
triggers evaluation, which settles the stored verdict to 0 (pass) or 1
(reject). -/
theorem filter_cached_verdict_semantics (filters : filter_type → filter_t)
    (call : sip_call_t) (h1 : call.msgs ≠ []) :
    (call.filtered ≠ -1 →
      filter_check_call filters call = ((call.filtered == 0 : Bool), call))
    ∧ (call.filtered = -1 →
        (filter_check_call filters call).2.filtered = 0 ∨
          (filter_check_call filters call).2.filtered = 1) := by
  constructor
  · intro h2
    exact filter_check_call_cached filters call h1 h2
  · intro h2
    rw [filter_check_call_unknown filters call h1 h2]
    exact check_filter_loop_zero_or_one filters call filter_order

/-- Witness for the amended C5 theorem: a concrete call with a cached reject
verdict is returned as false without any state change. -/
theorem filter_cached_verdict_semantics_witness :
    reject_cached_call.msgs ≠ [] ∧ reject_cached_call.filtered ≠ -1 ∧
      filter_check_call all_disabled_filters reject_cached_call =
        (false, reject_cached_call) :=
  ⟨by decide, by decide, by
    have h := (filter_cached_verdict_semantics all_disabled_filters
        reject_cached_call (by decide)).1 (by decide)
    exact h.trans (by decide)⟩

/-- Counterexample to claim C3 as stated: a successful filter_set leaves a
settled verdict (0) in place on a stored call; the verdict does not become
-1 (unknown). -/
theorem filter_set_keeps_verdict_counterexample :
    (filter_set_storage all_disabled_filters [verdict_pass_call]
        .FILTER_SIPFROM (some "bob") (fun _ => some (fun _ => true))).1 = 0
    ∧ (filter_set_storage all_disabled_filters [verdict_pass_call]
        .FILTER_SIPFROM (some "bob") (fun _ => some (fun _ => true))).2.2 =
        [verdict_pass_call]
    ∧ verdict_pass_call.filtered ≠ -1 :=
  ⟨rfl, rfl, by decide⟩

/-- Claim C3 (amended): filter_set, successful or not, changes only the
filter table and returns every stored call with its cached verdict
unchanged; setting every call verdict back to -1 (unknown) is done by the
separate function filter_reset_calls, which therefore has to run after a
filter change before the next stats or display query reflects the new
filter. -/
theorem filter_set_no_auto_reset (filters : filter_type → filter_t)
    (calls : List sip_call_t) (type : filter_type) (expr : Option String)
    (g_regex_new : String → Option (String → Bool)) :
    (filter_set_storage filters calls type expr g_regex_new).2.2 = calls
    ∧ ∀ call ∈ filter_reset_calls calls, call.filtered = -1 := by
  constructor
  · rfl
  · intro call hc
    simp only [filter_reset_calls, List.mem_map] at hc
    obtain ⟨c, _, rfl⟩ := hc
    rfl

/-- Witness for the amended C3 theorem at a concrete storage state. -/
theorem filter_set_no_auto_reset_witness :
    (filter_set_storage all_disabled_filters [verdict_pass_call]
        .FILTER_SIPTO (some "bob") (fun _ => some (fun _ => true))).2.2 =
      [verdict_pass_call]
    ∧ ({ verdict_pass_call with filtered := -1 } : sip_call_t).filtered = -1 :=
  ⟨(filter_set_no_auto_reset all_disabled_filters [verdict_pass_call]
      .FILTER_SIPTO (some "bob") (fun _ => some (fun _ => true))).1,
    (filter_set_no_auto_reset all_disabled_filters [verdict_pass_call]
      .FILTER_SIPTO (some "bob") (fun _ => some (fun _ => true))).2
      ({ verdict_pass_call with filtered := -1 }) (by decide)⟩

/-- Claim C4: when a PAYLOAD filter is enabled, for a call with at least one
message and an unknown verdict: a passing call has some message payload
matching the pattern; when every other enabled filter matches, the call
passes iff at least one message payload matches; and when no message payload
matches, the call is rejected (verdict 1, result false). -/
theorem filter_payload_or_over_messages (filters : filter_type → filter_t)
    (call : sip_call_t) (h1 : call.msgs ≠ []) (h2 : call.filtered = -1)
    (h3 : filter_enabled filters .FILTER_PAYLOAD = true) :
    ((filter_check_call filters call).1 = true →
      call.msgs.any (fun msg =>
        filter_check_expr (filters .FILTER_PAYLOAD) (msg_get_payload msg) == 0) = true)
    ∧ ((∀ i, i ≠ filter_type.FILTER_PAYLOAD → filter_enabled filters i = true →
          call_matches_filter filters call i = true) →
        ((filter_check_call filters call).1 = true ↔
          call.msgs.any (fun msg =>
            filter_check_expr (filters .FILTER_PAYLOAD) (msg_get_payload msg) == 0) = true))
    ∧ (call.msgs.any (fun msg =>
          filter_check_expr (filters .FILTER_PAYLOAD) (msg_get_payload msg) == 0) = false →
        (filter_check_call filters call).1 = false ∧
          (filter_check_call filters call).2.filtered = 1) := by
  have hiff := filter_check_call_true_iff filters call h1 h2
  refine ⟨?_, ?_, ?_⟩
  · intro hpass
    exact (hiff.mp hpass) .FILTER_PAYLOAD h3
  · intro hothers
    rw [hiff]
    constructor
    · intro hall
      exact hall .FILTER_PAYLOAD h3
    · intro hany i hen
      by_cases hp : i = filter_type.FILTER_PAYLOAD
      · subst hp
        exact hany
      · exact hothers i hp hen
  · intro hnone
    exact filter_check_call_reject_of_failed filters call h1 h2
      .FILTER_PAYLOAD h3 hnone

/-- Witness for the C4 theorem: scenario 6 of the specification. A call with
messages INVITE, 200 OK and BYE passes a PAYLOAD filter matching BYE. -/
theorem filter_payload_or_over_messages_witness :
    bye_call.msgs ≠ [] ∧ bye_call.filtered = -1 ∧
      filter_enabled payload_bye_filters .FILTER_PAYLOAD = true ∧
      (filter_check_call payload_bye_filters bye_call).1 = true :=
  ⟨by decide, rfl, by decide,
    ((filter_payload_or_over_messages payload_bye_filters bye_call
        (by decide) rfl (by decide)).2.1 (by decide)).mpr (by decide)⟩

/-- Claim C6: for every method of the fixed SIP method enumeration, mapping
the method string to its value and back yields the original string. Reason
spec-modelled: sip_method_str and sip_method_from_str are implemented in
sip.c, absent from this corpus; the enumeration values come from src/sip.h
lines 55 to 70. -/
theorem sip_method_round_trip :
    ∀ p ∈ sip_methods, sip_method_str (sip_method_from_str p.2) = some p.2 := by
  decide

/-- Witness for the C6 theorem at the REGISTER entry. -/
theorem sip_method_round_trip_witness :
    ((1 : Int), "REGISTER") ∈ sip_methods ∧
      sip_method_str (sip_method_from_str "REGISTER") = some "REGISTER" :=
  ⟨by decide, sip_method_round_trip ((1 : Int), "REGISTER") (by decide)⟩

/-- Claim C7: sip_validate_packet classifies a stream payload as -1 NOT_SIP
when the first line matches no SIP start line; otherwise 0 PARTIAL unless a
Content-Length header with value N is present and at least N body bytes
follow, 1 COMPLETE when the body is exactly N bytes, and 2 MULTIPLE when
bytes remain after the declared body. -/
theorem sip_validate_packet_classification (p : tcp_payload) :
    (sip_start_line_ok p.first_line = false → sip_validate_packet p = -1)
    ∧ (sip_start_line_ok p.first_line = true →
        (find_content_length p.headers = none → sip_validate_packet p = 0)
        ∧ ∀ n, find_content_length p.headers = some n →
            (p.body.length < n → sip_validate_packet p = 0)
            ∧ (p.body.length = n → sip_validate_packet p = 1)
            ∧ (n < p.body.length → sip_validate_packet p = 2)) := by
  constructor
  · intro h
    simp [sip_validate_packet, h]
  · intro h
    constructor
    · intro hn
      simp [sip_validate_packet, h, hn]
    · intro n hn
      refine ⟨?_, ?_, ?_⟩
      · intro hlt
        simp [sip_validate_packet, h, hn, hlt]
      · intro heq
        have hnlt : ¬ p.body.length < n := by omega
        simp [sip_validate_packet, h, hn, hnlt, heq]
      · intro hgt
        have hnlt : ¬ p.body.length < n := by omega
        have hne : ¬ p.body.length = n := by omega
        simp [sip_validate_packet, h, hn, hnlt, hne]

/-- Witness for the C7 theorem: a complete INVITE payload with declared
length 3 and a three-byte body is classified 1 (COMPLETE). -/
theorem sip_validate_packet_classification_witness :
    sip_start_line_ok complete_invite_payload.first_line = true ∧
      find_content_length complete_invite_payload.headers = some 3 ∧
      sip_validate_packet complete_invite_payload = 1 :=
  ⟨by decide, by decide,
    (((sip_validate_packet_classification complete_invite_payload).2
        (by decide)).2 3 (by decide)).2.1 (by decide)⟩

theorem apply_mutations_changed (ms : List storage_mutation)
    (s : storage_change_state) :
    (apply_mutations s ms).changed = (s.changed || !ms.isEmpty) := by
  induction ms generalizing s with
  | nil => simp [apply_mutations]
  | cons m ms ih =>
    show (apply_mutations (apply_mutation s m) ms).changed = _
    rw [ih]
    simp [apply_mutation]

/-- Claim C8: sip_calls_has_changed returns the changed flag and clears it in
the same invocation: right after a poll the flag is down, a poll following a
sequence of structural mutations returns true iff that sequence is nonempty,
and an immediately repeated poll with no intervening mutation returns
false. -/
theorem sip_calls_has_changed_poll_clears (s : storage_change_state)
    (ms : List storage_mutation) :
    (sip_calls_has_changed s).1 = s.changed
    ∧ (sip_calls_has_changed s).2.changed = false
    ∧ (sip_calls_has_changed
        (apply_mutations (sip_calls_has_changed s).2 ms)).1 = !ms.isEmpty
    ∧ (sip_calls_has_changed (sip_calls_has_changed s).2).1 = false := by
  refine ⟨rfl, rfl, ?_, rfl⟩
  show (apply_mutations ⟨false⟩ ms).changed = !ms.isEmpty
  rw [apply_mutations_changed]
  simp

theorem remove_first_unlocked_length (l : List stored_call)
    (h : l.any (fun c => !c.locked) = true) :
    (remove_first_unlocked l).length + 1 = l.length := by
  induction l with
  | nil => simp at h
  | cons c rest ih =>
    by_cases hc : c.locked
    · have h2 : rest.any (fun c => !c.locked) = true := by
        simpa [List.any_cons, hc] using h
      simp [remove_first_unlocked, hc, ih h2]
    · simp [remove_first_unlocked, hc]

theorem capacity_step_length (s : storage_capacity_state) (newc : stored_call)
    (h : s.all.length ≤ s.limit) :
    (sip_check_packet_capacity s newc).all.length ≤ s.limit := by
  show (capacity_step_all s newc).length ≤ s.limit
  unfold capacity_step_all
  split
  next hlim =>
    split
    next =>
      split
      next hany =>
        have hrm := remove_first_unlocked_length s.all hany
        simp only [List.length_append, List.length_singleton]
        omega
      next => exact h
    next => exact h
  next hlim =>
    simp only [List.length_append, List.length_singleton]
    omega

theorem capacity_run_length (cs : List stored_call)
    (s : storage_capacity_state) (h : s.all.length ≤ s.limit) :
    (cs.foldl sip_check_packet_capacity s).all.length ≤ s.limit := by
  induction cs generalizing s with
  | nil => simpa using h
  | cons c cs ih =>
    show (cs.foldl sip_check_packet_capacity
        (sip_check_packet_capacity s c)).all.length ≤ s.limit
    have hstep := capacity_step_length s c h
    exact ih (sip_check_packet_capacity s c) hstep

/-- Claim C9: the call list never exceeds the capture limit: the capacity
step preserves the bound, every state reachable from an empty storage obeys
it, and at the limit the step either rejects the new call (rotation off) or
evicts the oldest non-locked call before appending the new one (rotation on,
some stored call not locked). -/
theorem sip_storage_capacity_invariant (s : storage_capacity_state)
    (newc : stored_call) (cs : List stored_call)
    (h : s.all.length ≤ s.limit) :
    (sip_check_packet_capacity s newc).all.length ≤ s.limit
    ∧ (cs.foldl sip_check_packet_capacity
        (storage_capacity_state.mk [] s.limit s.rotate)).all.length ≤ s.limit
    ∧ (s.all.length = s.limit →
        (s.rotate = false → sip_check_packet_capacity s newc = s)
        ∧ (s.rotate = true → s.all.any (fun c => !c.locked) = true →
            (sip_check_packet_capacity s newc).all =
              remove_first_unlocked s.all ++ [newc])) := by
  refine ⟨capacity_step_length s newc h, ?_, ?_⟩
  · exact capacity_run_length cs ⟨[], s.limit, s.rotate⟩ (by simp)
  · intro hlim
    constructor
    · intro hrot
      have hall : capacity_step_all s newc = s.all := by
        simp [capacity_step_all, hlim, hrot]
      show ({ s with all := capacity_step_all s newc } : storage_capacity_state) = s
      rw [hall]
    · intro hrot hany
      show capacity_step_all s newc = _
      simp [capacity_step_all, hlim, hrot, hany]

/-- Witness for the C9 theorem: a storage at its limit of one with rotation
on evicts its single non-locked call and stores the new one. -/
theorem sip_storage_capacity_invariant_witness :
    capacity_witness_state.all.length ≤ capacity_witness_state.limit ∧
      (sip_check_packet_capacity capacity_witness_state ⟨false⟩).all.length ≤
        capacity_witness_state.limit ∧
      (sip_check_packet_capacity capacity_witness_state ⟨false⟩).all =
        remove_first_unlocked capacity_witness_state.all ++ [⟨false⟩] :=
  ⟨by decide,
    (sip_storage_capacity_invariant capacity_witness_state ⟨false⟩ []
        (by decide)).1,
    ((sip_storage_capacity_invariant capacity_witness_state ⟨false⟩ []
        (by decide)).2.2 rfl).2 rfl rfl⟩
